import Mathlib

/-!
Verification development for the ATS form-automation engine.

The definitions below are shallow embeddings of the repository functions:
  * `findBestMatch`    — src/utils/matcher.ts (progressive fuzzy matcher)
  * `findBestMatchV2`  — the variant copy of `findBestMatch` shipped in the
                         repository (identical loop, but no first-option fallback)
  * `retryWithBackoff` — BasePlatform.retryWithBackoff (bounded retry with
                         exponential backoff, base delay hard-coded to 1000 ms)
  * `select`           — BasePlatform.select (option extraction + match + pick,
                         run as one action of `retryWithBackoff`)
  * `selectSmartAttempt` — one attempt of BasePlatform.selectSmart (typeahead
                         resolution; the spinner-hidden wait is try/caught)
  * `BasePlatform.run` — the template-method lifecycle wrapper
  * `detectPlatform` / `createAdapter` — PlatformRegistry
  * `validateProfile` / `applyToJob`   — src/utils/validation.ts and the
                         validation-first entry point in src/automator.ts
  * `toggle` / `toggleSwitch` — BasePlatform.toggle and GlobexAdapter.toggleSwitch

Effects that belong to external collaborators (the Fuse.js search, the DOM,
the clock) are passed in as explicit parameters, so every definition is a pure,
executable function of the code's inputs and of those collaborators' outcomes.
-/

/-- A selectable option extracted from a form widget, as in
`MatchableOption` of src/utils/matcher.ts (`disabled` defaults to false). -/
structure MatchableOption where
  value : String
  text : String
  disabled : Bool := false
deriving DecidableEq, Repr

/-- The Fuse.js search collaborator: given a threshold, a query string and the
candidate list, return the ranked result list (best first).  Fuse.js is a
third-party library; the matcher only consumes its ranked output, so it is
modelled as an opaque parameter. -/
abbrev FuseSearch : Type :=
  Rat → String → List MatchableOption → List MatchableOption

/-- The three-tier threshold loop of `findBestMatch` (matcher.ts lines 19-32):
run the Fuse search at each threshold in order and return the value of the
top-ranked hit of the first tier that produces any result. -/
def searchTiers (fuse : FuseSearch) (targetValue : String)
    (enabledOptions : List MatchableOption) : List Rat → Option String
  | [] => none
  | t :: ts =>
    match fuse t targetValue enabledOptions with
    | [] => searchTiers fuse targetValue enabledOptions ts
    | r :: _ => some r.value

/-- `findBestMatch` of src/utils/matcher.ts: filter out disabled options,
return null on an empty remainder, try thresholds 0.2, 0.4, 0.6 in order, and
— in this copy of the function — fall back to `enabledOptions[0]?.value || null`
when every tier came back empty (the `|| null` turns an empty-string value
into null). -/
def findBestMatch (fuse : FuseSearch) (targetValue : String)
    (options : List MatchableOption) : Option String :=
  let enabledOptions := options.filter (fun opt => !opt.disabled)
  if enabledOptions.length = 0 then
    none
  else
    match searchTiers fuse targetValue enabledOptions [0.2, 0.4, 0.6] with
    | some v => some v
    | none =>
      match enabledOptions with
      | [] => none
      | o :: _ => if o.value = "" then none else some o.value

/-- The second copy of `findBestMatch` in the repository: the same filter and
threshold loop, but when every tier comes back empty it returns null with no
fallback to the first enabled option. -/
def findBestMatchV2 (fuse : FuseSearch) (targetValue : String)
    (options : List MatchableOption) : Option String :=
  let enabledOptions := options.filter (fun opt => !opt.disabled)
  if enabledOptions.length = 0 then
    none
  else
    match searchTiers fuse targetValue enabledOptions [0.2, 0.4, 0.6] with
    | some v => some v
    | none => none

/-- A Fuse search that clears no threshold: every tier returns no results. -/
def fuseNone : FuseSearch := fun _ _ _ => []

/-- The backoff delay the executor sleeps after the failed attempt with the
given 0-based index: `Math.pow(2, attempt) * 1000` in
BasePlatform.retryWithBackoff — the base delay is the literal 1000, not a
parameter. -/
def delayMs (attempt : Nat) : Nat := 2 ^ attempt * 1000

/-- The error message thrown once every attempt has failed:
`Failed after N retries: label - lastErrorMessage` (with the JS rendering
`undefined` when no error was recorded, which only happens for zero
attempts). -/
def retryExhaustedMsg (maxRetries : Nat) (actionName : String)
    (lastError : Option String) : String :=
  "Failed after " ++ toString maxRetries ++ " retries: " ++ actionName ++
    " - " ++ lastError.getD "undefined"

/-- The observable outcome of one `retryWithBackoff` call: the returned value
or thrown error, the number of times the action was invoked, and the list of
sleeps performed (in order, in milliseconds). -/
structure RetryOutcome (α : Type) where
  result : Except String α
  attempts : Nat
  sleeps : List Nat
deriving Repr

/-- One iteration state of the retry loop of BasePlatform.retryWithBackoff.
`fuel` is the number of loop iterations still allowed (`maxRetries - attempt`,
so the loop body runs exactly `maxRetries` times unless the action succeeds),
`attempt` the 0-based index of the next attempt, `lastError` the `lastError`
variable, `sleeps` the sleeps performed so far.  The action is modelled as a
function from the attempt index to its outcome on that attempt. -/
def retryAux (action : Nat → Except String α) (actionName : String)
    (maxRetries : Nat) :
    Nat → Nat → Option String → List Nat → RetryOutcome α
  | 0, attempt, lastError, sleeps =>
    ⟨Except.error (retryExhaustedMsg maxRetries actionName lastError),
      attempt, sleeps⟩
  | fuel + 1, attempt, _, sleeps =>
    match action attempt with
    | Except.ok v => ⟨Except.ok v, attempt + 1, sleeps⟩
    | Except.error e =>
      if attempt < maxRetries - 1 then
        retryAux action actionName maxRetries fuel (attempt + 1) (some e)
          (sleeps ++ [delayMs attempt])
      else
        retryAux action actionName maxRetries fuel (attempt + 1) (some e) sleeps

/-- BasePlatform.retryWithBackoff: run the action up to `maxRetries` times
(default 3); after each failed attempt except the last, warn and sleep
`2 ^ attempt * 1000` ms; rethrow a wrapping error after the final failure. -/
def retryWithBackoff (action : Nat → Except String α) (actionName : String)
    (maxRetries : Nat := 3) : RetryOutcome α :=
  retryAux action actionName maxRetries maxRetries 0 none []

/-- One attempt of BasePlatform.select: wait for the select element (assumed
present), extract its options from the DOM (here: the `domOptions` the page
holds), resolve the target through `findBestMatch`, and throw
`No match found for "target" in selector` when the matcher returns null;
otherwise pick the matched option.  The whole body, including the match, is
the action handed to `retryWithBackoff`. -/
def selectAttempt (fuse : FuseSearch) (domOptions : List MatchableOption)
    (selector targetValue : String) : Except String String :=
  match findBestMatch fuse targetValue domOptions with
  | none =>
    Except.error ("No match found for \"" ++ targetValue ++ "\" in " ++ selector)
  | some matchedValue => Except.ok matchedValue

/-- BasePlatform.select: the attempt above run through `retryWithBackoff`
with the default 3 attempts and the label `select <selector>`.  The DOM is
unchanged between attempts, so every attempt sees the same `domOptions`. -/
def select (fuse : FuseSearch) (domOptions : List MatchableOption)
    (selector targetValue : String) : RetryOutcome String :=
  retryWithBackoff (fun _ => selectAttempt fuse domOptions selector targetValue)
    ("select " ++ selector) 3

/-- A `page.waitForSelector` call whose success or timeout is decided by the
page (modelled by the Boolean `succeeds`); on timeout it throws. -/
def waitForSelectorExcept (succeeds : Bool) (selector : String) :
    Except String Unit :=
  if succeeds then Except.ok ()
  else Except.error ("Timeout exceeded waiting for selector " ++ selector)

/-- The `try { ... } catch { /* swallowed */ }` wrapper around the
spinner-hidden wait in BasePlatform.selectSmart: any thrown error is
discarded and execution continues. -/
def tryCatchSwallow (step : Except String Unit) : Except String Unit :=
  match step with
  | Except.ok _ => Except.ok ()
  | Except.error _ => Except.ok ()

/-- The page-side outcomes one selectSmart attempt can observe: whether the
results dropdown becomes visible in time, whether the spinner-hidden wait
succeeds in time, and the option list extracted from the dropdown. -/
structure TypeaheadEnv where
  dropdownAppears : Bool
  spinnerHides : Bool
  options : List MatchableOption

/-- One attempt of BasePlatform.selectSmart (the typeahead resolver), with the
initial click/typing steps (which precede both waits and succeed under retry)
elided: wait for the dropdown to be visible — a timeout here is an error for
the attempt; if a spinner selector was supplied, wait for it to be hidden
inside try/catch — a timeout here is swallowed; then extract the options and
resolve via `findBestMatch`, throwing
`No match found for "target" in typeahead <input>` on null. -/
def selectSmartAttempt (fuse : FuseSearch) (env : TypeaheadEnv)
    (inputSelector dropdownSelector targetValue : String)
    (waitForSpinner : Option String) : Except String String := do
  _ ← waitForSelectorExcept env.dropdownAppears dropdownSelector
  _ ← match waitForSpinner with
      | some spinnerSelector =>
        tryCatchSwallow (waitForSelectorExcept env.spinnerHides spinnerSelector)
      | none => Except.ok ()
  match findBestMatch fuse targetValue env.options with
  | none =>
    Except.error ("No match found for \"" ++ targetValue ++ "\" in typeahead "
      ++ inputSelector)
  | some matchedValue => pure matchedValue

/-- The result record of one adapter run, as in `ApplicationResult` of
src/types.ts: `confirmationId` and `error` are optional fields. -/
structure ApplicationResult where
  success : Bool
  confirmationId : Option String
  error : Option String
  durationMs : Nat
deriving DecidableEq, Repr

/-- BasePlatform.run: time the subclass `apply()`; on success return a success
record carrying the confirmation id; on any thrown error take a best-effort
screenshot (whose own failure is swallowed inside `screenshot`) and return a
failure record carrying the error message.  `applyOutcome` is the outcome of
`apply()` (its confirmation id or the message of the error it threw) and
`duration` the measured elapsed time; `run` itself throws nothing. -/
def BasePlatform.run (applyOutcome : Except String String) (duration : Nat) :
    ApplicationResult :=
  match applyOutcome with
  | Except.ok confirmationId =>
    { success := true, confirmationId := some confirmationId, error := none,
      durationMs := duration }
  | Except.error errorMessage =>
    { success := false, confirmationId := none, error := some errorMessage,
      durationMs := duration }

/-- One registry entry, as in `PlatformConfig` of PlatformRegistry:
`urlPattern.test` is modelled as a Boolean predicate on URLs, and the adapter
constructor by the adapter's name (instantiation cannot fail). -/
structure PlatformConfig where
  name : String
  urlPattern : String → Bool
  adapter : String

/-- PlatformRegistry.detectPlatform: scan the registration-ordered list and
return the first entry whose pattern matches the URL, or null. -/
def detectPlatform : List PlatformConfig → String → Option PlatformConfig
  | [], _ => none
  | platform :: rest, url =>
    if platform.urlPattern url then some platform else detectPlatform rest url

/-- PlatformRegistry.createAdapter: detect, and throw
`No platform adapter found for URL: <url>` when detection returns null;
otherwise instantiate the detected entry's adapter. -/
def createAdapter (platforms : List PlatformConfig) (url : String) :
    Except String String :=
  match detectPlatform platforms url with
  | none => Except.error ("No platform adapter found for URL: " ++ url)
  | some platform => Except.ok platform.adapter

/-- The runtime shape of one profile field as `validateProfile` inspects it:
absent (undefined/null), a string, or an array of strings (`skills`). -/
inductive FieldValue where
  | missing
  | str (s : String)
  | strList (l : List String)
deriving DecidableEq, Repr

/-- The candidate profile restricted to the fields `validateProfile` reads
(the optional fields linkedIn, portfolio, resumePath, salaryExpectation and
the work-authorization flags are never validated and are omitted). -/
structure UserProfile where
  firstName : FieldValue
  lastName : FieldValue
  email : FieldValue
  phone : FieldValue
  location : FieldValue
  school : FieldValue
  education : FieldValue
  experienceLevel : FieldValue
  skills : FieldValue
  coverLetter : FieldValue
  earliestStartDate : FieldValue
  referralSource : FieldValue
deriving DecidableEq, Repr

/-- The `requiredFields` array of validateProfile, in source order. -/
def requiredFields : List String :=
  ["firstName", "lastName", "email", "phone", "location", "school",
   "education", "experienceLevel", "skills", "coverLetter",
   "earliestStartDate", "referralSource"]

/-- The dynamic field read `profile[field]` for the required field names. -/
def profileField (p : UserProfile) : String → FieldValue
  | "firstName" => p.firstName
  | "lastName" => p.lastName
  | "email" => p.email
  | "phone" => p.phone
  | "location" => p.location
  | "school" => p.school
  | "education" => p.education
  | "experienceLevel" => p.experienceLevel
  | "skills" => p.skills
  | "coverLetter" => p.coverLetter
  | "earliestStartDate" => p.earliestStartDate
  | "referralSource" => p.referralSource
  | _ => FieldValue.missing

/-- The `value === undefined || value === null` test of validateProfile. -/
def isMissingValue : FieldValue → Bool
  | FieldValue.missing => true
  | _ => false

/-- JavaScript `String.prototype.trim`: strip leading and trailing
whitespace (implemented structurally over the character list). -/
def jsTrim (s : String) : String :=
  String.mk
    (((s.data.dropWhile Char.isWhitespace).reverse.dropWhile
        Char.isWhitespace).reverse)

/-- The blank test of validateProfile: a string that trims to empty
(`value.trim() === ''`), or an empty array.  A missing value is classified by
`isMissingValue` instead. -/
def isEmptyValue : FieldValue → Bool
  | FieldValue.missing => false
  | FieldValue.str s => jsTrim s = ""
  | FieldValue.strList l => l.isEmpty

/-- The accumulation loop of validateProfile: one pass over `requiredFields`
pushing each field name onto `missingFields` or `emptyFields`. -/
def collectViolations (p : UserProfile) : List String × List String :=
  requiredFields.foldl
    (fun acc field =>
      let value := profileField p field
      if isMissingValue value then (acc.1 ++ [field], acc.2)
      else if isEmptyValue value then (acc.1, acc.2 ++ [field])
      else acc)
    ([], [])

/-- JavaScript `Array.prototype.join(sep)`. -/
def joinSep (sep : String) : List String → String
  | [] => ""
  | [x] => x
  | x :: y :: rest => x ++ sep ++ joinSep sep (y :: rest)

/-- The single validation error message: a `Missing required fields:` line
when any field is absent and an `Empty required fields:` line when any is
blank, each listing every offender, joined under one header. -/
def validationErrorMsg (missingFields emptyFields : List String) : String :=
  let errors :=
    (if missingFields.length > 0 then
      ["Missing required fields: " ++ joinSep ", " missingFields] else [])
    ++
    (if emptyFields.length > 0 then
      ["Empty required fields: " ++ joinSep ", " emptyFields] else [])
  "Profile validation failed:\n  " ++ joinSep "\n  " errors

/-- validateProfile of src/utils/validation.ts: collect every missing and
every blank required field and throw one error naming all of them, or return
normally when the profile is complete. -/
def validateProfile (p : UserProfile) : Except String Unit :=
  let violations := collectViolations p
  if violations.1.length > 0 ∨ violations.2.length > 0 then
    Except.error (validationErrorMsg violations.1 violations.2)
  else
    Except.ok ()

/-- applyToJob of src/automator.ts, up to the validation gate: validate first
and return a failure result immediately on a validation error — the
BrowserManager is only constructed and the browser only launched after
validation passes.  `browserPhase` is everything after the gate: the result
it would produce together with the number of browser operations (launch,
navigation, page actions) it performs; the second component of applyToJob's
result counts the browser operations actually performed. -/
def applyToJob (browserPhase : ApplicationResult × Nat) (profile : UserProfile) :
    ApplicationResult × Nat :=
  match validateProfile profile with
  | Except.error errorMessage =>
    ({ success := false, confirmationId := none, error := some errorMessage,
       durationMs := 0 }, 0)
  | Except.ok _ => browserPhase

/-- One attempt of BasePlatform.toggle: read the element's current on/off
state, click only when it differs from the target state.  `click` is the
DOM's response to a click on the element (for a toggle widget, flipping its
state); the result is the element's state after the attempt paired with the
number of clicks performed. -/
def toggle (click : Bool → Bool) (currentState targetState : Bool) :
    Bool × Nat :=
  if currentState != targetState then (click currentState, 1)
  else (currentState, 0)

/-- GlobexAdapter.toggleSwitch: the same read-compare-click body as
BasePlatform.toggle, reading the state from `dataset.value === 'true'`. -/
def toggleSwitch (click : Bool → Bool) (currentState targetState : Bool) :
    Bool × Nat :=
  if currentState != targetState then (click currentState, 1)
  else (currentState, 0)

/-- Substring occurrence, used to state that an error message names a field
or label: `needle` occurs contiguously inside `hay`. -/
def appearsIn (hay needle : String) : Prop :=
  ∃ a b : String, hay = a ++ needle ++ b

/-! ## Helper lemmas -/

theorem retryAux_allFail {α : Type} (action : Nat → Except String α)
    (actionName : String) (maxRetries : Nat) (e : Nat → String)
    (hfail : ∀ i, action i = Except.error (e i)) :
    ∀ (fuel attempt : Nat) (le : Option String) (sleeps : List Nat),
      attempt + fuel = maxRetries → 1 ≤ fuel →
      retryAux action actionName maxRetries fuel attempt le sleeps =
        ⟨Except.error
            (retryExhaustedMsg maxRetries actionName (some (e (maxRetries - 1)))),
          maxRetries, sleeps ++ (List.range' attempt (fuel - 1)).map delayMs⟩ := by
  intro fuel
  induction fuel with
  | zero => intro attempt le sleeps _ h; omega
  | succ n ih =>
    intro attempt le sleeps hsum _
    simp only [retryAux, hfail attempt]
    cases n with
    | zero =>
      have hlt : ¬ attempt < maxRetries - 1 := by omega
      rw [if_neg hlt]
      simp only [retryAux]
      have h1 : attempt = maxRetries - 1 := by omega
      have h2 : attempt + 1 = maxRetries := by omega
      simp [h1, h2]
      omega
    | succ m =>
      have hlt : attempt < maxRetries - 1 := by omega
      rw [if_pos hlt]
      rw [ih (attempt + 1) (some (e attempt)) (sleeps ++ [delayMs attempt])
        (by omega) (by omega)]
      simp [List.range'_succ, List.append_assoc]

theorem retryAux_firstSuccess {α : Type} (action : Nat → Except String α)
    (actionName : String) (maxRetries : Nat) (e : Nat → String) (j : Nat) (v : α)
    (hfail : ∀ i, i < j → action i = Except.error (e i))
    (hok : action j = Except.ok v) :
    ∀ (fuel attempt : Nat) (le : Option String) (sleeps : List Nat),
      attempt + fuel = maxRetries → attempt ≤ j → j < maxRetries →
      retryAux action actionName maxRetries fuel attempt le sleeps =
        ⟨Except.ok v, j + 1,
          sleeps ++ (List.range' attempt (j - attempt)).map delayMs⟩ := by
  intro fuel
  induction fuel with
  | zero => intro attempt le sleeps h1 h2 h3; omega
  | succ n ih =>
    intro attempt le sleeps hsum hle hj
    by_cases haj : attempt = j
    · subst haj
      simp only [retryAux, hok]
      simp
    · have hlt : attempt < j := by omega
      simp only [retryAux, hfail attempt hlt]
      have hlt2 : attempt < maxRetries - 1 := by omega
      rw [if_pos hlt2]
      rw [ih (attempt + 1) (some (e attempt)) (sleeps ++ [delayMs attempt])
        (by omega) (by omega) hj]
      have hsplit : j - attempt = (j - (attempt + 1)) + 1 := by omega
      rw [hsplit]
      simp [List.range'_succ, List.append_assoc]

theorem retryExhaustedMsg_names (maxRetries : Nat)
    (actionName lastErrorMsg : String) :
    appearsIn (retryExhaustedMsg maxRetries actionName (some lastErrorMsg))
        actionName ∧
    appearsIn (retryExhaustedMsg maxRetries actionName (some lastErrorMsg))
        lastErrorMsg := by
  constructor
  · refine ⟨"Failed after " ++ toString maxRetries ++ " retries: ",
      " - " ++ lastErrorMsg, ?_⟩
    simp [retryExhaustedMsg, String.append_assoc]
  · refine ⟨"Failed after " ++ toString maxRetries ++ " retries: " ++
      actionName ++ " - ", "", ?_⟩
    simp [retryExhaustedMsg, String.append_assoc, String.append_empty]

theorem retryWithBackoff_allFail {α : Type} (action : Nat → Except String α)
    (actionName : String) (N : Nat) (hN : 1 ≤ N) (e : Nat → String)
    (hfail : ∀ i, action i = Except.error (e i)) :
    retryWithBackoff action actionName N =
      ⟨Except.error (retryExhaustedMsg N actionName (some (e (N - 1)))), N,
        (List.range (N - 1)).map delayMs⟩ := by
  unfold retryWithBackoff
  rw [retryAux_allFail action actionName N e hfail N 0 none [] (by omega) hN]
  simp [List.range_eq_range']

theorem retryWithBackoff_firstSuccess {α : Type} (action : Nat → Except String α)
    (actionName : String) (N j : Nat) (e : Nat → String) (v : α)
    (hj : j < N) (hfail : ∀ i, i < j → action i = Except.error (e i))
    (hok : action j = Except.ok v) :
    retryWithBackoff action actionName N =
      ⟨Except.ok v, j + 1, (List.range j).map delayMs⟩ := by
  unfold retryWithBackoff
  rw [retryAux_firstSuccess action actionName N e j v hfail hok N 0 none []
    (by omega) (by omega) hj]
  simp [List.range_eq_range']

/-! ## Claim theorems -/

/-- C3 (amended): BasePlatform.retryWithBackoff takes no base-delay parameter;
its base delay is the hard-coded 1000 ms.  For every maxRetries N ≥ 1 and
every action that fails on every attempt, the executor performs exactly N
attempts, sleeps 1000·2^i ms after the i-th failed attempt for i = 0..N-2
(so the total sleep is the sum of 1000·2^i over i < N-1, with no sleep after
the final failed attempt), and then fails with an error that names the action
label and contains the last underlying error message. -/
theorem retry_exhaustion_spec {α : Type} (actionName : String) (N : Nat)
    (hN : 1 ≤ N) (action : Nat → Except String α) (e : Nat → String)
    (hfail : ∀ i, action i = Except.error (e i)) :
    retryWithBackoff action actionName N =
      ⟨Except.error (retryExhaustedMsg N actionName (some (e (N - 1)))), N,
        (List.range (N - 1)).map delayMs⟩ ∧
    ((List.range (N - 1)).map delayMs).sum =
      ((List.range (N - 1)).map (fun i => 1000 * 2 ^ i)).sum ∧
    appearsIn (retryExhaustedMsg N actionName (some (e (N - 1)))) actionName ∧
    appearsIn (retryExhaustedMsg N actionName (some (e (N - 1)))) (e (N - 1)) := by
  refine ⟨retryWithBackoff_allFail action actionName N hN e hfail, ?_,
    (retryExhaustedMsg_names N actionName (e (N - 1))).1,
    (retryExhaustedMsg_names N actionName (e (N - 1))).2⟩
  simp [show delayMs = fun i => 2 ^ i * 1000 from rfl, Nat.mul_comm]

/-- C3 witness: two always-failing attempts with label `act` perform 2
attempts, sleep once for 1000 ms, and fail with the wrapping message. -/
theorem retry_exhaustion_spec_witness :
    retryWithBackoff (fun _ => (Except.error "boom" : Except String Nat)) "act" 2 =
      ⟨Except.error "Failed after 2 retries: act - boom", 2, [1000]⟩ := by
  have h := retry_exhaustion_spec "act" 2 (by omega)
    (fun _ => (Except.error "boom" : Except String Nat)) (fun _ => "boom")
    (fun _ => rfl)
  rw [h.1]
  rfl

/-- C3 counterexample: the claim as stated quantifies over a base delay B and
asserts the sleep after the first failed attempt is B·2^0; the code has no
base-delay parameter and always sleeps 1000·2^i, so for B = 1 and N = 2 the
claimed sleep list [1·2^0] differs from the actual [1000]. -/
theorem retry_base_delay_not_parametric :
    (retryWithBackoff (fun _ => (Except.error "boom" : Except String Nat))
        "act" 2).sleeps = [1000] ∧
    ([1000] : List Nat) ≠ [1 * 2 ^ 0] := by
  exact ⟨rfl, by decide⟩

/-- C4 (confirmed): for every maxRetries N ≥ 1 and every action that first
succeeds on (1-based) attempt k ≤ N, retryWithBackoff performs exactly k
attempts, returns the action's result, and the only sleeps are the k-1
backoff sleeps that followed the earlier failed attempts — no sleep and no
attempt happens after the success. -/
theorem retry_success_spec {α : Type} (actionName : String) (N k : Nat)
    (hk1 : 1 ≤ k) (hkN : k ≤ N) (action : Nat → Except String α)
    (e : Nat → String) (v : α)
    (hfail : ∀ i, i < k - 1 → action i = Except.error (e i))
    (hok : action (k - 1) = Except.ok v) :
    retryWithBackoff action actionName N =
      ⟨Except.ok v, k, (List.range (k - 1)).map delayMs⟩ ∧
    ((List.range (k - 1)).map delayMs).length = k - 1 := by
  have h := retryWithBackoff_firstSuccess action actionName N (k - 1) e v
    (by omega) hfail hok
  have hk : k - 1 + 1 = k := by omega
  rw [hk] at h
  exact ⟨h, by simp⟩

/-- C4 witness: an action failing on the first attempt and succeeding on the
second, under 3 allowed attempts, runs exactly twice, returns its value, and
sleeps only the single backoff between the two attempts. -/
theorem retry_success_spec_witness :
    retryWithBackoff (fun i => if i = 0 then Except.error "e0" else Except.ok 7)
        "act" 3 =
      ⟨Except.ok 7, 2, [1000]⟩ := by
  have h := retry_success_spec "act" 3 2 (by omega) (by omega)
    (fun i => if i = 0 then Except.error "e0" else Except.ok 7)
    (fun _ => "e0") 7
    (by intro i hi; have h0 : i = 0 := by omega
        subst h0; rfl)
    (by rfl)
  rw [h.1]
  rfl

/-- C2 (amended): when findBestMatch returns NoMatch inside
BasePlatform.select, the resulting `No match found` error is thrown inside the
action handed to retryWithBackoff, so the retry executor re-runs the whole
operation — including the match against the unchanged DOM — for all 3
attempts, sleeping 1000 ms and 2000 ms in between, and only then escalates a
`Failed after 3 retries` error wrapping the no-match message. -/
theorem select_noMatch_is_retried (fuse : FuseSearch)
    (domOptions : List MatchableOption) (selector targetValue : String)
    (h : findBestMatch fuse targetValue domOptions = none) :
    select fuse domOptions selector targetValue =
      ⟨Except.error (retryExhaustedMsg 3 ("select " ++ selector)
          (some ("No match found for \"" ++ targetValue ++ "\" in " ++ selector))),
        3, [delayMs 0, delayMs 1]⟩ := by
  have hfail : ∀ i : Nat,
      (fun _ : Nat => selectAttempt fuse domOptions selector targetValue) i =
        Except.error
          ("No match found for \"" ++ targetValue ++ "\" in " ++ selector) := by
    intro i
    simp [selectAttempt, h]
  unfold select
  rw [retryWithBackoff_allFail
    (fun _ : Nat => selectAttempt fuse domOptions selector targetValue)
    ("select " ++ selector) 3 (by omega)
    (fun _ => "No match found for \"" ++ targetValue ++ "\" in " ++ selector)
    hfail]
  rfl

/-- C2 witness: a select over an option list that matches nothing runs its
attempt 3 times, sleeps 1000 and 2000 ms, and escalates the wrapping error. -/
theorem select_noMatch_is_retried_witness :
    select fuseNone [] "#experience-level" "bachelors" =
      ⟨Except.error
          "Failed after 3 retries: select #experience-level - No match found for \"bachelors\" in #experience-level",
        3, [1000, 2000]⟩ := by
  have h := select_noMatch_is_retried fuseNone [] "#experience-level"
    "bachelors" rfl
  rw [h]
  rfl

/-- C2 counterexample: the claim says a NoMatch outcome escalates immediately
and is never retried, i.e. the match runs once; in the code a select whose
matcher finds nothing performs 3 attempts, not 1. -/
theorem select_noMatch_attempts_three :
    (select fuseNone [] "#experience-level" "bachelors").attempts = 3 ∧
    (3 : Nat) ≠ 1 := by
  exact ⟨rfl, by decide⟩

/-- C1 (code bug): at an input where the Fuse search clears no threshold, the
findBestMatch of src/utils/matcher.ts returns the first enabled option's value
("hs") instead of null, contradicting DESIGN.md ("Return null if all
thresholds fail", "Return null instead of blindly picking the first option");
the repository's other copy of findBestMatch returns null there. -/
theorem findBestMatch_falls_back_to_first_option :
    findBestMatch fuseNone "phd" [{ value := "hs", text := "High School" }] =
      some "hs" ∧
    findBestMatchV2 fuseNone "phd" [{ value := "hs", text := "High School" }] =
      none := by
  exact ⟨rfl, rfl⟩

/-- C9 (confirmed): for every target and every Fuse behavior, findBestMatch —
in both copies — returns NoMatch on an empty option list and on a list whose
options are all disabled: the disabled filter leaves nothing and the function
returns null before any tier is tried. -/
theorem findBestMatch_empty_or_disabled (fuse : FuseSearch) (target : String)
    (options : List MatchableOption)
    (h : options = [] ∨ ∀ o ∈ options, o.disabled = true) :
    findBestMatch fuse target options = none ∧
    findBestMatchV2 fuse target options = none := by
  have hfilter : options.filter (fun opt => !opt.disabled) = [] := by
    cases h with
    | inl h => subst h; rfl
    | inr h => exact List.filter_eq_nil_iff.mpr (fun a ha => by simp [h a ha])
  constructor <;> simp [findBestMatch, findBestMatchV2, hfilter]

/-- C9 witness: a list with a single disabled option yields NoMatch from both
copies of the matcher. -/
theorem findBestMatch_empty_or_disabled_witness :
    findBestMatch fuseNone "bachelors"
        [{ value := "a", text := "A", disabled := true }] = none ∧
    findBestMatchV2 fuseNone "bachelors"
        [{ value := "a", text := "A", disabled := true }] = none :=
  findBestMatch_empty_or_disabled fuseNone "bachelors"
    [{ value := "a", text := "A", disabled := true }] (Or.inr (by decide))

/-- C5 (confirmed): every ApplicationResult produced by BasePlatform.run has
the claimed shape — on success the confirmation id is set and the error unset,
on failure the error is set (and non-empty whenever the escalated failure
carried a non-empty message, which every error thrown by this code does) and
the confirmation id unset, and durationMs is the measured duration in both
cases; run is a total function of the apply outcome, never rethrowing. -/
theorem run_result_shape (applyOutcome : Except String String) (duration : Nat)
    (hmsg : ∀ e, applyOutcome = Except.error e → e ≠ "") :
    ((BasePlatform.run applyOutcome duration).success = true →
      (∃ cid, (BasePlatform.run applyOutcome duration).confirmationId = some cid)
        ∧ (BasePlatform.run applyOutcome duration).error = none) ∧
    ((BasePlatform.run applyOutcome duration).success = false →
      (BasePlatform.run applyOutcome duration).confirmationId = none ∧
      ∃ e, (BasePlatform.run applyOutcome duration).error = some e ∧ e ≠ "") ∧
    (BasePlatform.run applyOutcome duration).durationMs = duration := by
  cases applyOutcome with
  | ok cid => simp [BasePlatform.run]
  | error e =>
    refine ⟨by simp [BasePlatform.run], ?_, by simp [BasePlatform.run]⟩
    intro _
    exact ⟨by simp [BasePlatform.run], e, by simp [BasePlatform.run],
      hmsg e rfl⟩

/-- C5 witness: a failing apply with message `boom` and a 5 ms duration yields
a failure result with no confirmation id, the non-empty error, and the
duration. -/
theorem run_result_shape_witness :
    (BasePlatform.run (Except.error "boom") 5).success = false ∧
    (BasePlatform.run (Except.error "boom") 5).confirmationId = none ∧
    (∃ e, (BasePlatform.run (Except.error "boom") 5).error = some e ∧ e ≠ "") ∧
    (BasePlatform.run (Except.error "boom") 5).durationMs = 5 := by
  have h := run_result_shape (Except.error "boom") 5
    (by intro e he; injection he with he; subst he; decide)
  exact ⟨rfl, (h.2.1 rfl).1, (h.2.1 rfl).2, h.2.2⟩

/-- C6 (confirmed): detectPlatform returns the earliest-registered entry whose
pattern matches the URL, regardless of whether later entries also match; and
when no registered pattern matches, detection returns null and createAdapter
fails with the `No platform adapter found` error for that URL. -/
theorem registry_first_match_wins :
    (∀ (pre : List PlatformConfig) (platform : PlatformConfig)
        (post : List PlatformConfig) (url : String),
      (∀ q ∈ pre, q.urlPattern url = false) → platform.urlPattern url = true →
      detectPlatform (pre ++ platform :: post) url = some platform) ∧
    (∀ (platforms : List PlatformConfig) (url : String),
      (∀ q ∈ platforms, q.urlPattern url = false) →
      detectPlatform platforms url = none ∧
      createAdapter platforms url =
        Except.error ("No platform adapter found for URL: " ++ url)) := by
  constructor
  · intro pre platform post url hpre hmatch
    induction pre with
    | nil => simp [detectPlatform, hmatch]
    | cons q rest ih =>
      have hq : q.urlPattern url = false := hpre q (by simp)
      simp only [List.cons_append, detectPlatform, hq, Bool.false_eq_true,
        if_false]
      exact ih (fun r hr => hpre r (by simp [hr]))
  · intro platforms url hall
    have hdet : detectPlatform platforms url = none := by
      induction platforms with
      | nil => rfl
      | cons q rest ih =>
        have hq := hall q (by simp)
        simp only [detectPlatform, hq, Bool.false_eq_true, if_false]
        exact ih (fun r hr => hall r (by simp [hr]))
    exact ⟨hdet, by simp [createAdapter, hdet]⟩

/-- C6 witness: with Acme registered before an always-matching Globex entry,
an Acme URL resolves to the Acme entry; a URL matching neither pattern makes
detection return null and createAdapter fail with the same outcome. -/
theorem registry_first_match_wins_witness :
    detectPlatform
        [⟨"Acme Corp", fun u => u == "/acme.html", "AcmeAdapter"⟩,
         ⟨"Globex Corp", fun _ => true, "GlobexAdapter"⟩] "/acme.html" =
      some ⟨"Acme Corp", fun u => u == "/acme.html", "AcmeAdapter"⟩ ∧
    detectPlatform
        [⟨"Acme Corp", fun u => u == "/acme.html", "AcmeAdapter"⟩] "/other" =
      none ∧
    createAdapter
        [⟨"Acme Corp", fun u => u == "/acme.html", "AcmeAdapter"⟩] "/other" =
      Except.error "No platform adapter found for URL: /other" := by
  have h1 := registry_first_match_wins.1 []
    ⟨"Acme Corp", fun u => u == "/acme.html", "AcmeAdapter"⟩
    [⟨"Globex Corp", fun _ => true, "GlobexAdapter"⟩] "/acme.html"
    (by intro q hq; simp at hq) (by rfl)
  have h2 := registry_first_match_wins.2
    [⟨"Acme Corp", fun u => u == "/acme.html", "AcmeAdapter"⟩] "/other"
    (by intro q hq
        simp only [List.mem_singleton] at hq
        subst hq
        rfl)
  exact ⟨by simpa using h1, h2.1, by simpa using h2.2⟩

/-- C7 (confirmed): in one selectSmart attempt with a spinner selector
supplied, the outcome is the same whether the spinner-hidden wait succeeds or
times out — the try/catch swallows that wait's failure and resolution
proceeds to option extraction and matching — while a dropdown-visible wait
that fails is an error for the attempt. -/
theorem selectSmart_spinner_swallowed (fuse : FuseSearch)
    (opts : List MatchableOption)
    (inputSelector dropdownSelector targetValue spinnerSelector : String)
    (b₁ b₂ : Bool) :
    selectSmartAttempt fuse ⟨true, b₁, opts⟩ inputSelector dropdownSelector
        targetValue (some spinnerSelector) =
      selectSmartAttempt fuse ⟨true, b₂, opts⟩ inputSelector dropdownSelector
        targetValue (some spinnerSelector) ∧
    selectSmartAttempt fuse ⟨false, b₁, opts⟩ inputSelector dropdownSelector
        targetValue (some spinnerSelector) =
      Except.error ("Timeout exceeded waiting for selector " ++
        dropdownSelector) := by
  constructor
  · cases b₁ <;> cases b₂ <;> rfl
  · rfl

theorem isMissing_not_isEmpty (v : FieldValue) (h : isMissingValue v = true) :
    isEmptyValue v = false := by
  cases v <;> simp_all [isMissingValue, isEmptyValue]

theorem foldl_violations (p : UserProfile) :
    ∀ (l : List String) (m e : List String),
      l.foldl
        (fun acc field =>
          let value := profileField p field
          if isMissingValue value then (acc.1 ++ [field], acc.2)
          else if isEmptyValue value then (acc.1, acc.2 ++ [field])
          else acc)
        (m, e) =
      (m ++ l.filter (fun f => isMissingValue (profileField p f)),
       e ++ l.filter (fun f => isEmptyValue (profileField p f))) := by
  intro l
  induction l with
  | nil => intro m e; simp
  | cons f rest ih =>
    intro m e
    simp only [List.foldl_cons, List.filter_cons]
    by_cases hmiss : isMissingValue (profileField p f) = true
    · have hemp := isMissing_not_isEmpty _ hmiss
      simp [hmiss, hemp, ih, List.append_assoc]
    · simp only [Bool.not_eq_true] at hmiss
      by_cases hemp : isEmptyValue (profileField p f) = true
      · simp [hmiss, hemp, ih, List.append_assoc]
      · simp only [Bool.not_eq_true] at hemp
        simp [hmiss, hemp, ih]

theorem collectViolations_eq (p : UserProfile) :
    collectViolations p =
      (requiredFields.filter (fun f => isMissingValue (profileField p f)),
       requiredFields.filter (fun f => isEmptyValue (profileField p f))) := by
  unfold collectViolations
  rw [foldl_violations p requiredFields [] []]
  simp

theorem joinSep_appearsIn (sep : String) :
    ∀ (l : List String) (f : String), f ∈ l → appearsIn (joinSep sep l) f := by
  intro l
  induction l with
  | nil => intro f hf; simp at hf
  | cons x rest ih =>
    intro f hf
    cases rest with
    | nil =>
      simp only [List.mem_singleton] at hf
      subst hf
      exact ⟨"", "", by simp [joinSep, String.append_empty, String.empty_append]⟩
    | cons y rest2 =>
      rcases List.mem_cons.mp hf with h | h
      · subst h
        refine ⟨"", sep ++ joinSep sep (y :: rest2), ?_⟩
        simp [joinSep, String.append_assoc, String.empty_append]
      · obtain ⟨a, b, hab⟩ := ih f h
        refine ⟨x ++ sep ++ a, b, ?_⟩
        simp [joinSep, hab, String.append_assoc]

theorem appearsIn_append_left (s t f : String) (h : appearsIn s f) :
    appearsIn (s ++ t) f := by
  obtain ⟨a, b, rfl⟩ := h
  exact ⟨a, b ++ t, by simp [String.append_assoc]⟩

theorem appearsIn_append_right (s t f : String) (h : appearsIn t f) :
    appearsIn (s ++ t) f := by
  obtain ⟨a, b, rfl⟩ := h
  exact ⟨s ++ a, b, by simp [String.append_assoc]⟩

theorem joinSep_appearsIn_lift (sep : String) :
    ∀ (l : List String) (x f : String), x ∈ l → appearsIn x f →
      appearsIn (joinSep sep l) f := by
  intro l
  induction l with
  | nil => intro x f hx; simp at hx
  | cons a rest ih =>
    intro x f hx hf
    cases rest with
    | nil =>
      simp only [List.mem_singleton] at hx
      subst hx
      simpa [joinSep] using hf
    | cons y rest2 =>
      rcases List.mem_cons.mp hx with h | h
      · subst h
        show appearsIn (x ++ sep ++ joinSep sep (y :: rest2)) f
        exact appearsIn_append_left _ _ _ (appearsIn_append_left _ _ _ hf)
      · show appearsIn (a ++ sep ++ joinSep sep (y :: rest2)) f
        exact appearsIn_append_right _ _ _ (ih x f h hf)

theorem validationErrorMsg_names (m e : List String) (f : String)
    (h : f ∈ m ∨ f ∈ e) : appearsIn (validationErrorMsg m e) f := by
  have hmsg : validationErrorMsg m e =
      "Profile validation failed:\n  " ++
        joinSep "\n  "
          ((if m.length > 0 then
              ["Missing required fields: " ++ joinSep ", " m] else [])
            ++
            (if e.length > 0 then
              ["Empty required fields: " ++ joinSep ", " e] else [])) := rfl
  rw [hmsg]
  apply appearsIn_append_right
  cases h with
  | inl hf =>
    have hm : m.length > 0 := List.length_pos.mpr (List.ne_nil_of_mem hf)
    apply joinSep_appearsIn_lift "\n  " _
      ("Missing required fields: " ++ joinSep ", " m) f
    · simp [hm]
    · exact appearsIn_append_right _ _ _ (joinSep_appearsIn ", " m f hf)
  | inr hf =>
    have he : e.length > 0 := List.length_pos.mpr (List.ne_nil_of_mem hf)
    apply joinSep_appearsIn_lift "\n  " _
      ("Empty required fields: " ++ joinSep ", " e) f
    · simp [he]
    · exact appearsIn_append_right _ _ _ (joinSep_appearsIn ", " e f hf)

/-- C8 (confirmed): for every profile with at least one missing or blank
required field, validateProfile fails with one single error whose message is
built from the complete lists of missing and blank fields — it names every
violating field, not just the first — and applyToJob returns that failure
before the browser phase runs: no browser operation is performed and the
outcome does not depend on what the browser phase would have done. -/
theorem validation_gate_spec (p : UserProfile)
    (browserPhase : ApplicationResult × Nat)
    (h : (collectViolations p).1 ≠ [] ∨ (collectViolations p).2 ≠ []) :
    validateProfile p =
      Except.error
        (validationErrorMsg (collectViolations p).1 (collectViolations p).2) ∧
    applyToJob browserPhase p =
      ({ success := false, confirmationId := none,
         error := some (validationErrorMsg (collectViolations p).1
           (collectViolations p).2),
         durationMs := 0 }, 0) ∧
    (∀ other : ApplicationResult × Nat,
      applyToJob other p = applyToJob browserPhase p) ∧
    (collectViolations p).1 =
      requiredFields.filter (fun f => isMissingValue (profileField p f)) ∧
    (collectViolations p).2 =
      requiredFields.filter (fun f => isEmptyValue (profileField p f)) ∧
    (∀ f, f ∈ (collectViolations p).1 ∨ f ∈ (collectViolations p).2 →
      appearsIn
        (validationErrorMsg (collectViolations p).1 (collectViolations p).2)
        f) := by
  have hcond : (collectViolations p).1.length > 0 ∨
      (collectViolations p).2.length > 0 := by
    cases h with
    | inl h => exact Or.inl (List.length_pos.mpr h)
    | inr h => exact Or.inr (List.length_pos.mpr h)
  have hvalid : validateProfile p =
      Except.error
        (validationErrorMsg (collectViolations p).1 (collectViolations p).2) := by
    unfold validateProfile
    rw [if_pos hcond]
  have heq := collectViolations_eq p
  refine ⟨hvalid, by simp [applyToJob, hvalid],
    fun other => by simp [applyToJob, hvalid], ?_, ?_,
    fun f hf => validationErrorMsg_names _ _ f hf⟩
  · rw [heq]
  · rw [heq]

/-- C8 witness: a profile missing `email` and `skills` fails validation with
one message naming both fields, and applyToJob performs no browser operation
and ignores the browser phase entirely. -/
theorem validation_gate_spec_witness :
    validateProfile
        { firstName := FieldValue.str "Jane", lastName := FieldValue.str "Doe",
          email := FieldValue.missing, phone := FieldValue.str "555",
          location := FieldValue.str "X", school := FieldValue.str "S",
          education := FieldValue.str "B", experienceLevel := FieldValue.str "mid",
          skills := FieldValue.missing, coverLetter := FieldValue.str "c",
          earliestStartDate := FieldValue.str "d",
          referralSource := FieldValue.str "r" } =
      Except.error
        "Profile validation failed:\n  Missing required fields: email, skills" ∧
    applyToJob (⟨true, some "CONF", none, 9⟩, 5)
        { firstName := FieldValue.str "Jane", lastName := FieldValue.str "Doe",
          email := FieldValue.missing, phone := FieldValue.str "555",
          location := FieldValue.str "X", school := FieldValue.str "S",
          education := FieldValue.str "B", experienceLevel := FieldValue.str "mid",
          skills := FieldValue.missing, coverLetter := FieldValue.str "c",
          earliestStartDate := FieldValue.str "d",
          referralSource := FieldValue.str "r" } =
      ({ success := false, confirmationId := none,
         error := some
           "Profile validation failed:\n  Missing required fields: email, skills",
         durationMs := 0 }, 0) := by
  have h := validation_gate_spec
    { firstName := FieldValue.str "Jane", lastName := FieldValue.str "Doe",
      email := FieldValue.missing, phone := FieldValue.str "555",
      location := FieldValue.str "X", school := FieldValue.str "S",
      education := FieldValue.str "B", experienceLevel := FieldValue.str "mid",
      skills := FieldValue.missing, coverLetter := FieldValue.str "c",
      earliestStartDate := FieldValue.str "d",
      referralSource := FieldValue.str "r" }
    (⟨true, some "CONF", none, 9⟩, 5)
    (Or.inl (by decide))
  refine ⟨?_, ?_⟩
  · rw [h.1]; rfl
  · rw [h.2.1]; rfl

/-- C10 (confirmed): with a DOM in which clicking a toggle flips its state,
one attempt of BasePlatform.toggle (and of GlobexAdapter.toggleSwitch, which
has the same body) clicks exactly once when the current state differs from
the target and not at all when it already matches; after the attempt the
element is in the target state, so a second identical attempt performs no
click and leaves the state unchanged — applying the toggle twice equals
applying it once. -/
theorem toggle_click_only_when_needed (click : Bool → Bool)
    (hclick : ∀ b, click b = !b) (s t : Bool) :
    (toggle click s t).2 = (if s = t then 0 else 1) ∧
    (toggle click s t).1 = t ∧
    toggle click (toggle click s t).1 t = ((toggle click s t).1, 0) ∧
    toggleSwitch click s t = toggle click s t := by
  cases s <;> cases t <;> simp [toggle, toggleSwitch, hclick]

/-- C10 witness: flipping a switch that is off toward on clicks once and ends
on; repeating the attempt clicks zero times and stays on. -/
theorem toggle_click_only_when_needed_witness :
    (toggle (fun b => !b) false true).2 = (if (false : Bool) = true then 0 else 1) ∧
    (toggle (fun b => !b) false true).1 = true ∧
    toggle (fun b => !b) (toggle (fun b => !b) false true).1 true =
      ((toggle (fun b => !b) false true).1, 0) ∧
    toggleSwitch (fun b => !b) false true = toggle (fun b => !b) false true :=
  toggle_click_only_when_needed (fun b => !b) (fun _ => rfl) false true
